import Mathlib

/-!
A shallow embedding of the `pushpull` teleoperated-vehicle controller
(`src/yolov8n.py`, `src/app_improved.py`, `src/clientserver.py`), together
with proofs about its adaptive inference scheduler, motor actuator,
command gateway, split client loop and shutdown sequence.
-/

namespace PushPull

/-- State of the four L298N motor-driver input lines.  Both applications
drive pins `IN1, IN2, IN3, IN4 = 17, 27, 22, 5`; `in1`/`in2` are side A
(left motor) forward/reverse lines, `in3`/`in4` side B (right motor)
forward/reverse lines.  `true` models `GPIO.output(pin, True)`. -/
structure PinState where
  in1 : Bool
  in2 : Bool
  in3 : Bool
  in4 : Bool
deriving DecidableEq, Repr

/-- Motor function `forward()`: `GPIO.output(IN1, True); GPIO.output(IN2,
False); GPIO.output(IN3, True); GPIO.output(IN4, False)`.  All four pins
are written, so the result is independent of the prior state. -/
def forward (_s : PinState) : PinState :=
  { in1 := true, in2 := false, in3 := true, in4 := false }

/-- Motor function `backward()`: IN1 low, IN2 high, IN3 low, IN4 high. -/
def backward (_s : PinState) : PinState :=
  { in1 := false, in2 := true, in3 := false, in4 := true }

/-- Motor function `left()` (tank turn left: left side back, right side
forward): IN1 low, IN2 high, IN3 high, IN4 low. -/
def left (_s : PinState) : PinState :=
  { in1 := false, in2 := true, in3 := true, in4 := false }

/-- Motor function `right()` (tank turn right): IN1 high, IN2 low, IN3
low, IN4 high. -/
def right (_s : PinState) : PinState :=
  { in1 := true, in2 := false, in3 := false, in4 := true }

/-- Motor function `stop()`: the loop `for pin in [IN1, IN2, IN3, IN4]:
GPIO.output(pin, False)` sets every line inactive. -/
def stop (_s : PinState) : PinState :=
  { in1 := false, in2 := false, in3 := false, in4 := false }

/-- The five logical drive commands (the spec's `Direction`); the
Actuator State Machine is realised by the five motor functions. -/
inductive Direction
  | forward
  | backward
  | left
  | right
  | stop
deriving DecidableEq, Repr

/-- Dispatch of a `Direction` to its motor function, exactly as the
command routes of both applications do. -/
def apply : Direction → PinState → PinState
  | Direction.forward, s => forward s
  | Direction.backward, s => backward s
  | Direction.left, s => left s
  | Direction.right, s => right s
  | Direction.stop, s => stop s

/-- Pin state after a sequence of directional commands has been applied
to an initial state. -/
def applySeq (s : PinState) (ds : List Direction) : PinState :=
  List.foldl (fun t d => apply d t) s ds

/-- Number of active (high) lines in a pin state. -/
def activeCount (s : PinState) : Nat :=
  (if s.in1 then 1 else 0) + (if s.in2 then 1 else 0) +
    (if s.in3 then 1 else 0) + (if s.in4 then 1 else 0)

/-- The unified command route of `yolov8n.py` (`@app.route("/cmd/<direction>")`):
dispatches the five known tokens to their motor functions and in every
case returns `"", 204`.  The result is the new pin state and the HTTP
status code. -/
def command (direction : String) (s : PinState) : PinState × Nat :=
  if direction = "forward" then (forward s, 204)
  else if direction = "backward" then (backward s, 204)
  else if direction = "left" then (left s, 204)
  else if direction = "right" then (right s, 204)
  else if direction = "stop" then (stop s, 204)
  else (s, 204)

/-- The per-direction command routes of `app_improved.py`
(`/forward` .. `/stop`, each returning a 200 text body); a path with no
matching route is answered by Flask with status 404 and touches no pins.
The index and video-feed routes are irrelevant to the pins and omitted. -/
def app_improved_route (path : String) (s : PinState) : PinState × Nat :=
  if path = "/forward" then (forward s, 200)
  else if path = "/backward" then (backward s, 200)
  else if path = "/left" then (left s, 200)
  else if path = "/right" then (right s, 200)
  else if path = "/stop" then (stop s, 200)
  else (s, 404)

/-- Configured skip interval of `yolov8n.py` (`SKIP_FRAMES = 3`; the
`app_improved.py` variant uses a local value of 4). -/
def SKIP_FRAMES : Nat := 3

/-- Display outcome of one streaming tick: either the annotated frame
produced by running inference on the captured raw frame (`results =
model(frame)` followed by plotting), or the raw frame passed through
unmodified. -/
inductive DisplayFrame (α : Type) where
  | annotated (raw : α) (ann : α)
  | raw (f : α)
deriving DecidableEq, Repr

/-- Whether a display frame came from an inference tick. -/
def DisplayFrame.isAnnotated {α : Type} : DisplayFrame α → Bool
  | DisplayFrame.annotated _ _ => true
  | DisplayFrame.raw _ => false

/-- The captured raw frame a display frame was derived from. -/
def DisplayFrame.source {α : Type} : DisplayFrame α → α
  | DisplayFrame.annotated f _ => f
  | DisplayFrame.raw f => f

/-- Record of one emitted tick of `gen_frames`: the display frame chosen
for the tick and the bytes of the multipart chunk yielded for it. -/
structure Tick (α β : Type) where
  display : DisplayFrame α
  chunk : β
deriving DecidableEq, Repr

/-- Embedding of the `gen_frames` generator shared (up to the value of
`SKIP_FRAMES`) by `yolov8n.py` and `app_improved.py`.  Arguments:
`skip` is `SKIP_FRAMES`; `infer f` models `model(frame)` followed by
plotting the result, which either returns the annotated frame or raises
an exception (`Except.error`); `encode` models `cv2.imencode`, returning
the success flag `ret` and the buffer bytes — the source ignores `ret`
and always yields the chunk; `count` is `frame_count`; the list is the
sequence of successfully captured frames (a failed `camera.read` ends
the loop, so the stream of successful captures is finite).  The result
is the list of emitted ticks and, if inference raised, the exception
that escapes the generator (the source has no handler around
`model(frame)`, so the generator terminates there).  The
`last_annotated_frame` variable is written but never read under the
default pass-through policy (the reuse branch is commented out), so it
is not modelled. -/
def gen_frames {α β ε : Type} (skip : Nat) (infer : α → Except ε α)
    (encode : α → Bool × β) (count : Nat) :
    List α → List (Tick α β) × Option ε
  | [] => ([], none)
  | f :: rest =>
    if count % (skip + 1) = 0 then
      match infer f with
      | Except.error e => ([], some e)
      | Except.ok ann =>
        let r := gen_frames skip infer encode (count + 1) rest
        ({ display := DisplayFrame.annotated f ann, chunk := (encode ann).2 } :: r.1, r.2)
    else
      let r := gen_frames skip infer encode (count + 1) rest
      ({ display := DisplayFrame.raw f, chunk := (encode f).2 } :: r.1, r.2)

/-- Timeout in seconds of the client's detect request in
`clientserver.py`: `requests.post(PC_SERVER_URL, files=files, timeout=2)`. -/
def clientTimeout : Nat := 2

/-- The motor vocabulary of `clientserver.py`: only `forward`, `left`,
`right` and `stop` motor functions exist on the client. -/
inductive MotorCmd
  | forward
  | left
  | right
  | stop
deriving DecidableEq, Repr

/-- Outcome of one `/detect` round trip as seen by the client: either a
response with its HTTP status code and the optional `action` field of
its JSON body, or a `requests.exceptions.RequestException` (which covers
both timeouts and transport errors). -/
inductive HttpOutcome where
  | response (status : Nat) (action : Option String)
  | requestException
deriving DecidableEq, Repr

/-- Motor dispatch of the client response handler: `if action ==
"forward": forward() elif action == "left": left() elif action ==
"right": right() else: stop()`. -/
def execAction (action : String) : MotorCmd :=
  if action = "forward" then MotorCmd.forward
  else if action = "left" then MotorCmd.left
  else if action = "right" then MotorCmd.right
  else MotorCmd.stop

/-- One iteration of the client main loop's network section, mapping the
round-trip outcome and the motor command currently in effect to the
motor command in effect afterwards.  On a `RequestException` the handler
calls `stop()` (and sleeps before retrying); on a 200 response it
dispatches `data.get("action", "stop")`; on any other status code the
body of the `if response.status_code == 200` block is skipped and no
motor function is called, so the previous command stays in effect. -/
def clientStep (r : HttpOutcome) (current : MotorCmd) : MotorCmd :=
  match r with
  | HttpOutcome.requestException => MotorCmd.stop
  | HttpOutcome.response status action =>
    if status = 200 then execAction (Option.getD action ("stop")) else current

/-- The client main loop over a finite trace of round-trip outcomes: the
`while True` loop handles each outcome in turn (the `except` handler
continues the loop rather than terminating it). -/
def clientRun (outcomes : List HttpOutcome) (current : MotorCmd) : MotorCmd :=
  List.foldl (fun c r => clientStep r c) current outcomes

/-- Lifecycle state of a released-once resource handle. -/
inductive HandleState
  | acquired
  | released
deriving DecidableEq, Repr

/-- Events of the shutdown sequence, in the order the `finally` block can
emit them. -/
inductive ShutdownEvent
  | stopMotors
  | gpioCleanup
  | cameraRelease
deriving DecidableEq, Repr

/-- Process state relevant to shutdown: the pin state, the GPIO pin-bank
handle with its release count, and the camera handle with its
`isOpened()` flag and release count. -/
structure SysState where
  pins : PinState
  gpio : HandleState
  gpioReleases : Nat
  camOpen : Bool
  cam : HandleState
  camReleases : Nat
deriving DecidableEq, Repr

/-- The `finally` block of `yolov8n.py` and `app_improved.py` (their
single in-process shutdown path, reached on normal exit, KeyboardInterrupt
and faults escaping `app.run`): `stop()`, then `GPIO.cleanup()`, then
`if camera and camera.isOpened(): camera.release()`.  Returns the state
afterwards and the ordered event trace. -/
def shutdown (s : SysState) : SysState × List ShutdownEvent :=
  let s1 : SysState := { s with pins := stop s.pins }
  let s2 : SysState := { s1 with gpio := HandleState.released,
                                 gpioReleases := s1.gpioReleases + 1 }
  if s2.camOpen then
    ({ s2 with cam := HandleState.released, camReleases := s2.camReleases + 1 },
      [ShutdownEvent.stopMotors, ShutdownEvent.gpioCleanup, ShutdownEvent.cameraRelease])
  else
    (s2, [ShutdownEvent.stopMotors, ShutdownEvent.gpioCleanup])

/-- Claim C2: every moving Direction activates exactly two of the four
pin lines and deactivates the other two, per the tank-drive truth table:
Forward activates IN1 and IN3, Backward IN2 and IN4, Left IN2 and IN3,
Right IN1 and IN4 — from any prior pin state. -/
theorem direction_truth_table : ∀ s : PinState,
    (apply Direction.forward s = { in1 := true, in2 := false, in3 := true, in4 := false } ∧
      activeCount (apply Direction.forward s) = 2) ∧
    (apply Direction.backward s = { in1 := false, in2 := true, in3 := false, in4 := true } ∧
      activeCount (apply Direction.backward s) = 2) ∧
    (apply Direction.left s = { in1 := false, in2 := true, in3 := true, in4 := false } ∧
      activeCount (apply Direction.left s) = 2) ∧
    (apply Direction.right s = { in1 := true, in2 := false, in3 := false, in4 := true } ∧
      activeCount (apply Direction.right s) = 2) := by
  intro s
  exact ⟨⟨rfl, rfl⟩, ⟨rfl, rfl⟩, ⟨rfl, rfl⟩, ⟨rfl, rfl⟩⟩

/-- Claim C6: applying Stop after any sequence of Directions, from any
prior pin state, yields the all-inactive pin vector. -/
theorem stop_resets : ∀ (s : PinState) (ds : List Direction),
    apply Direction.stop (applySeq s ds) =
      { in1 := false, in2 := false, in3 := false, in4 := false } := by
  intro s ds
  rfl

/-- Reduction of `isAnnotated` on an inference tick. -/
theorem isAnnotated_annotated {α : Type} (f a : α) :
    DisplayFrame.isAnnotated (DisplayFrame.annotated f a) = true := rfl

/-- Reduction of `isAnnotated` on a pass-through tick. -/
theorem isAnnotated_raw {α : Type} (f : α) :
    DisplayFrame.isAnnotated (DisplayFrame.raw f) = false := rfl

/-- Reduction of `source` on an inference tick. -/
theorem source_annotated {α : Type} (f a : α) :
    DisplayFrame.source (DisplayFrame.annotated f a) = f := rfl

/-- Reduction of `source` on a pass-through tick. -/
theorem source_raw {α : Type} (f : α) :
    DisplayFrame.source (DisplayFrame.raw f) = f := rfl

/-- Structural description of a `gen_frames` run whose oracle never
raises (`infer = Except.ok ∘ plot`): no exception escapes, one tick per
captured frame, ticks keep the capture order, a tick is annotated
exactly when its counter value is divisible by `skip + 1`, and the
number of annotated ticks equals the number of such counter values. -/
theorem gen_frames_ok_spec {α β : Type} (skip : Nat) (plot : α → α)
    (encode : α → Bool × β) :
    ∀ (frames : List α) (count : Nat),
      (gen_frames skip (fun f => (Except.ok (plot f) : Except Unit α)) encode count frames).2
          = none ∧
      (gen_frames skip (fun f => (Except.ok (plot f) : Except Unit α)) encode count frames).1.length
          = frames.length ∧
      (gen_frames skip (fun f => (Except.ok (plot f) : Except Unit α)) encode count frames).1.map
          (fun k => DisplayFrame.source k.display) = frames ∧
      (gen_frames skip (fun f => (Except.ok (plot f) : Except Unit α)) encode count frames).1.map
          (fun k => DisplayFrame.isAnnotated k.display)
          = (List.range' count frames.length).map (fun t => decide (t % (skip + 1) = 0)) ∧
      (gen_frames skip (fun f => (Except.ok (plot f) : Except Unit α)) encode count frames).1.map
          (fun k => k.display)
          = (List.zip (List.range' count frames.length) frames).map (fun p =>
              if p.1 % (skip + 1) = 0 then DisplayFrame.annotated p.2 (plot p.2)
              else DisplayFrame.raw p.2) ∧
      ((gen_frames skip (fun f => (Except.ok (plot f) : Except Unit α)) encode count frames).1.filter
          (fun k => DisplayFrame.isAnnotated k.display)).length
          = ((List.range' count frames.length).filter
              (fun t => decide (t % (skip + 1) = 0))).length := by
  intro frames
  induction frames with
  | nil =>
    intro count
    simp [gen_frames]
  | cons f rest ih =>
    intro count
    obtain ⟨ih1, ih2, ih3, ih4, ih5, ih6⟩ := ih (count + 1)
    by_cases h : count % (skip + 1) = 0
    · simp [gen_frames, h, ih1, ih2, ih3, ih4, ih5, ih6, List.range'_succ,
        isAnnotated_annotated, isAnnotated_raw, source_annotated, source_raw]
    · simp [gen_frames, h, ih1, ih2, ih3, ih4, ih5, ih6, List.range'_succ,
        isAnnotated_annotated, isAnnotated_raw, source_annotated, source_raw]

/-- Counting helper: among the counter values `0, …, K-1` exactly
`ceil(K / (N+1)) = (K + N) / (N + 1)` are divisible by `N + 1`. -/
theorem length_filter_range_mod (N : Nat) :
    ∀ K : Nat, ((List.range K).filter (fun t => decide (t % (N + 1) = 0))).length
      = (K + N) / (N + 1) := by
  intro K
  induction K with
  | zero =>
    simp [Nat.div_eq_of_lt (Nat.lt_succ_of_le (Nat.le_refl N))]
  | succ k ih =>
    have key : ((N + 1) ∣ (k + N + 1)) ↔ k % (N + 1) = 0 := by
      have h1 : k + N + 1 = k + (N + 1) := by omega
      rw [h1, Nat.dvd_add_self_right, Nat.dvd_iff_mod_eq_zero]
    have hstep : k + 1 + N = (k + N) + 1 := by omega
    rw [List.range_succ, List.filter_append, List.length_append, ih, hstep, Nat.succ_div]
    by_cases h : k % (N + 1) = 0
    · rw [if_pos (key.mpr h)]
      simp [h]
    · rw [if_neg (fun hd => h (key.mp hd))]
      simp [h]

/-- Helper: mapping a constant `true` over a list of counter values gives
a replicated list. -/
theorem map_fixed_true : ∀ (l : List Nat),
    l.map (fun _ => true) = List.replicate l.length true := by
  intro l
  induction l with
  | nil => rfl
  | cons a l ih => simp [ih, List.replicate_succ]

/-- Claim C1: in `gen_frames` the Detection Oracle runs on a tick exactly
when the tick counter is divisible by `SKIP_FRAMES + 1`; on every other
tick the raw captured frame passes through.  In particular for skip
interval 0 every tick is an inference tick, and for the configured
`SKIP_FRAMES = 3` exactly the ticks 0, 4, 8, … are. -/
theorem infer_schedule {α β : Type} (skip : Nat) (plot : α → α)
    (encode : α → Bool × β) (frames : List α) :
    ((gen_frames skip (fun f => (Except.ok (plot f) : Except Unit α)) encode 0 frames).1.map
        (fun k => DisplayFrame.isAnnotated k.display)
        = (List.range frames.length).map (fun t => decide (t % (skip + 1) = 0))) ∧
    ((gen_frames skip (fun f => (Except.ok (plot f) : Except Unit α)) encode 0 frames).1.map
        (fun k => k.display)
        = (List.zip (List.range frames.length) frames).map (fun p =>
            if p.1 % (skip + 1) = 0 then DisplayFrame.annotated p.2 (plot p.2)
            else DisplayFrame.raw p.2)) ∧
    ((gen_frames 0 (fun f => (Except.ok (plot f) : Except Unit α)) encode 0 frames).1.map
        (fun k => DisplayFrame.isAnnotated k.display)
        = List.replicate frames.length true) ∧
    ((gen_frames SKIP_FRAMES (fun f => (Except.ok (plot f) : Except Unit α)) encode 0 frames).1.map
        (fun k => DisplayFrame.isAnnotated k.display)
        = (List.range frames.length).map (fun t => decide (t % 4 = 0))) := by
  refine ⟨?_, ?_, ?_, ?_⟩
  · rw [List.range_eq_range']
    exact (gen_frames_ok_spec skip plot encode frames 0).2.2.2.1
  · rw [List.range_eq_range']
    exact (gen_frames_ok_spec skip plot encode frames 0).2.2.2.2.1
  · have h := (gen_frames_ok_spec 0 plot encode frames 0).2.2.2.1
    rw [← List.range_eq_range'] at h
    rw [h]
    have hmap : (List.range frames.length).map (fun t => decide (t % (0 + 1) = 0))
        = (List.range frames.length).map (fun _ => true) := by
      simp [Nat.mod_one]
    rw [hmap, map_fixed_true, List.length_range]
  · have h := (gen_frames_ok_spec SKIP_FRAMES plot encode frames 0).2.2.2.1
    rw [← List.range_eq_range'] at h
    exact h

/-- Claim C4: a stream of K successfully captured frames with skip
interval `skip` under the pass-through policy yields exactly K emitted
chunks, one per frame in original capture order, no exception, of which
exactly `ceil(K / (skip+1)) = (K + skip) / (skip + 1)` are annotated
inference frames (the remaining ones being raw pass-through frames). -/
theorem stream_counts {α β : Type} (skip : Nat) (plot : α → α)
    (encode : α → Bool × β) (frames : List α) :
    (gen_frames skip (fun f => (Except.ok (plot f) : Except Unit α)) encode 0 frames).2
        = none ∧
    (gen_frames skip (fun f => (Except.ok (plot f) : Except Unit α)) encode 0 frames).1.length
        = frames.length ∧
    (gen_frames skip (fun f => (Except.ok (plot f) : Except Unit α)) encode 0 frames).1.map
        (fun k => DisplayFrame.source k.display) = frames ∧
    ((gen_frames skip (fun f => (Except.ok (plot f) : Except Unit α)) encode 0 frames).1.filter
        (fun k => DisplayFrame.isAnnotated k.display)).length
        = (frames.length + skip) / (skip + 1) := by
  obtain ⟨h1, h2, h3, _, _, h6⟩ := gen_frames_ok_spec skip plot encode frames 0
  refine ⟨h1, h2, h3, ?_⟩
  rw [h6, ← List.range_eq_range', length_filter_range_mod]

/-- Claim C3 counterexample: with an oracle that raises on the first tick
(`SKIP_FRAMES = 3`, counter 0 is an inference tick), `gen_frames` emits
no chunk at all for that tick — in particular not the raw captured frame
— and the exception escapes the generator, ending the stream. -/
theorem infer_failure_cex :
    (gen_frames 3 (fun _ : Nat => (Except.error () : Except Unit Nat))
        (fun f => (true, f)) 0 [5]).2 = some () ∧
    (gen_frames 3 (fun _ : Nat => (Except.error () : Except Unit Nat))
        (fun f => (true, f)) 0 [5]).1 = [] := by
  exact ⟨rfl, rfl⟩

/-- Claim C3 amended: `gen_frames` has no handler around the inference
call, so when the oracle raises on an inference tick the exception
propagates out of the generator: the failing tick emits nothing (no
raw-frame fallback) and no further frames are processed. -/
theorem infer_failure_propagates {α β ε : Type} (skip : Nat)
    (infer : α → Except ε α) (encode : α → Bool × β) (count : Nat)
    (f : α) (rest : List α) (e : ε)
    (hc : count % (skip + 1) = 0) (hf : infer f = Except.error e) :
    gen_frames skip infer encode count (f :: rest) = ([], some e) := by
  simp [gen_frames, hc, hf]

/-- Witness for the amended claim C3 at a concrete input. -/
theorem infer_failure_propagates_witness :
    gen_frames 3 (fun _ : Nat => (Except.error () : Except Unit Nat))
        (fun f => (true, f)) 0 [7, 8] = ([], some ()) :=
  infer_failure_propagates 3 (fun _ : Nat => (Except.error () : Except Unit Nat))
    (fun f => (true, f)) 0 7 [8] () (by decide) rfl

/-- Claim C9 counterexample: `gen_frames` ignores the success flag
returned by `cv2.imencode`, so a tick whose encoding fails (flag
`false`) still emits its chunk instead of being skipped: with a single
frame and an always-failing encoder, one chunk is emitted, not zero. -/
theorem encode_failure_cex :
    gen_frames 3 (fun f : Nat => (Except.ok f : Except Unit Nat))
        (fun _ => ((false, 0) : Bool × Nat)) 0 [7]
      = ([{ display := DisplayFrame.annotated 7 7, chunk := 0 }], none) ∧
    ([{ display := DisplayFrame.annotated 7 7, chunk := 0 }] : List (Tick Nat Nat)) ≠ [] := by
  exact ⟨rfl, by decide⟩

/-- Claim C9 amended: the `ret` flag of `cv2.imencode` is never
inspected: the output of `gen_frames` is unchanged if every encode
reports failure instead of success, and one chunk is emitted per
captured frame regardless of the flag. -/
theorem encode_flag_ignored {α β : Type} (skip : Nat) (plot : α → α)
    (bytes : α → β) (flag : α → Bool) (count : Nat) (frames : List α) :
    gen_frames (ε := Unit) skip (fun f => Except.ok (plot f))
        (fun f => (flag f, bytes f)) count frames
      = gen_frames (ε := Unit) skip (fun f => Except.ok (plot f))
        (fun f => (true, bytes f)) count frames ∧
    (gen_frames (ε := Unit) skip (fun f => Except.ok (plot f))
        (fun f => (flag f, bytes f)) count frames).1.length = frames.length := by
  constructor
  · induction frames generalizing count with
    | nil => rfl
    | cons f rest ih =>
      by_cases h : count % (skip + 1) = 0 <;> simp [gen_frames, h, ih]
  · exact (gen_frames_ok_spec skip plot (fun f => (flag f, bytes f)) frames count).2.1

/-- Claim C8 counterexample: in `yolov8n.py` the unrecognized token
"turbo", arriving while the Forward pin pattern is engaged, is neither
treated as Stop (the pins stay in the Forward pattern, not all-inactive)
nor rejected with a client-error status (the route answers 204, which is
not in 400..499). -/
theorem command_unknown_cex :
    command ("turbo") { in1 := true, in2 := false, in3 := true, in4 := false } =
        ({ in1 := true, in2 := false, in3 := true, in4 := false }, 204) ∧
    ({ in1 := true, in2 := false, in3 := true, in4 := false } : PinState) ≠
        { in1 := false, in2 := false, in3 := false, in4 := false } ∧
    ¬ (400 ≤ 204 ∧ 204 < 500) := by
  refine ⟨rfl, by decide, by decide⟩

/-- Claim C8 amended: an unrecognized direction token is a deterministic
no-op that does not crash: the unified route of `yolov8n.py` leaves the
pins unchanged and answers 204 (a success status), while the per-route
variant `app_improved.py` has no matching route and Flask rejects the
request with 404 (a client error), likewise leaving the pins
unchanged. -/
theorem command_unknown_amended :
    (∀ (tok : String) (s : PinState), tok ≠ "forward" → tok ≠ "backward" →
      tok ≠ "left" → tok ≠ "right" → tok ≠ "stop" → command tok s = (s, 204)) ∧
    (∀ (path : String) (s : PinState), path ≠ "/forward" → path ≠ "/backward" →
      path ≠ "/left" → path ≠ "/right" → path ≠ "/stop" →
      app_improved_route path s = (s, 404)) := by
  constructor
  · intro tok s h1 h2 h3 h4 h5
    simp [command, h1, h2, h3, h4, h5]
  · intro path s h1 h2 h3 h4 h5
    simp [app_improved_route, h1, h2, h3, h4, h5]

/-- Witness for the amended claim C8 at a concrete token and pin
state. -/
theorem command_unknown_amended_witness :
    command ("boost") { in1 := false, in2 := true, in3 := true, in4 := false } =
        ({ in1 := false, in2 := true, in3 := true, in4 := false }, 204) ∧
    app_improved_route ("/boost") { in1 := false, in2 := true, in3 := true, in4 := false } =
        ({ in1 := false, in2 := true, in3 := true, in4 := false }, 404) :=
  ⟨command_unknown_amended.1 ("boost") _ (by decide) (by decide) (by decide)
      (by decide) (by decide),
    command_unknown_amended.2 ("/boost") _ (by decide) (by decide) (by decide)
      (by decide) (by decide)⟩

/-- Claim C5 counterexample: a non-200 response from `/detect` does not
stop the motors: with Forward last commanded, a 500 response (even one
whose body says "stop") leaves Forward in effect, contradicting the
claim that the client defaults to Stop on a non-200 status. -/
theorem non200_keeps_direction_cex :
    clientStep (HttpOutcome.response 500 (some ("stop"))) MotorCmd.forward
        = MotorCmd.forward ∧
    MotorCmd.forward ≠ MotorCmd.stop := by
  exact ⟨rfl, by decide⟩

/-- Claim C5 amended: the client posts each frame with a 2-second
timeout; on a `RequestException` (timeout or transport error) it applies
Stop and continues the loop with the link retried on the next iteration;
but a non-200 response is silently ignored: no motor function is called
and the previously commanded direction stays in effect. -/
theorem client_failsafe_amended :
    clientTimeout = 2 ∧
    (∀ c : MotorCmd, clientStep HttpOutcome.requestException c = MotorCmd.stop) ∧
    (∀ (rest : List HttpOutcome) (c : MotorCmd),
      clientRun (HttpOutcome.requestException :: rest) c = clientRun rest MotorCmd.stop) ∧
    (∀ (status : Nat) (action : Option String) (c : MotorCmd), status ≠ 200 →
      clientStep (HttpOutcome.response status action) c = c) := by
  refine ⟨rfl, fun c => rfl, fun rest c => rfl, ?_⟩
  intro status action c h
  simp [clientStep, h]

/-- Witness for the amended claim C5 at a concrete non-200 status. -/
theorem client_failsafe_amended_witness :
    clientStep (HttpOutcome.response 500 (some ("forward"))) MotorCmd.left
        = MotorCmd.left :=
  client_failsafe_amended.2.2.2 500 (some ("forward")) MotorCmd.left (by decide)

/-- Claim C10: the client executes a motor command only for the action
tokens "forward", "left" and "right"; every other action value —
including the otherwise-valid Direction token "backward" — and a
missing action field (defaulted to "stop" by `data.get`) result in Stop
being applied. -/
theorem client_action_dispatch :
    execAction ("forward") = MotorCmd.forward ∧
    execAction ("left") = MotorCmd.left ∧
    execAction ("right") = MotorCmd.right ∧
    execAction ("backward") = MotorCmd.stop ∧
    Option.getD (none : Option String) ("stop") = "stop" ∧
    (∀ c : MotorCmd, clientStep (HttpOutcome.response 200 none) c = MotorCmd.stop) ∧
    (∀ c : MotorCmd,
      clientStep (HttpOutcome.response 200 (some ("backward"))) c = MotorCmd.stop) ∧
    (∀ a : String, a ≠ "forward" → a ≠ "left" → a ≠ "right" →
      execAction a = MotorCmd.stop) := by
  refine ⟨rfl, rfl, rfl, rfl, rfl, fun c => rfl, fun c => rfl, ?_⟩
  intro a h1 h2 h3
  simp [execAction, h1, h2, h3]

/-- Witness for claim C10 at a concrete unrecognized action token. -/
theorem client_action_dispatch_witness : execAction ("spin") = MotorCmd.stop :=
  client_action_dispatch.2.2.2.2.2.2.2 ("spin") (by decide) (by decide) (by decide)

/-- Claim C7: the shutdown path (the `finally` block) performs, in
order, Stop to the actuator, GPIO pin-bank release, camera release;
afterwards every pin is inactive, both handles are Released, and — the
block running once — each is released exactly once. -/
theorem shutdown_sequence (s : SysState) (hopen : s.camOpen = true)
    (hg : s.gpioReleases = 0) (hc : s.camReleases = 0) :
    (shutdown s).2 =
        [ShutdownEvent.stopMotors, ShutdownEvent.gpioCleanup, ShutdownEvent.cameraRelease] ∧
    (shutdown s).1.pins = { in1 := false, in2 := false, in3 := false, in4 := false } ∧
    (shutdown s).1.gpio = HandleState.released ∧
    (shutdown s).1.cam = HandleState.released ∧
    (shutdown s).1.gpioReleases = 1 ∧
    (shutdown s).1.camReleases = 1 := by
  simp [shutdown, stop, hopen, hg, hc]

/-- Witness for claim C7 at a concrete pre-shutdown state (pins engaged
in the Right pattern, both handles acquired, camera open; the `SysState`
fields are pins, gpio, gpioReleases, camOpen, cam, camReleases). -/
theorem shutdown_sequence_witness :
    (shutdown ⟨⟨true, false, false, true⟩, HandleState.acquired, 0, true,
        HandleState.acquired, 0⟩).2 =
      [ShutdownEvent.stopMotors, ShutdownEvent.gpioCleanup, ShutdownEvent.cameraRelease] ∧
    (shutdown ⟨⟨true, false, false, true⟩, HandleState.acquired, 0, true,
        HandleState.acquired, 0⟩).1.pins
      = { in1 := false, in2 := false, in3 := false, in4 := false } ∧
    (shutdown ⟨⟨true, false, false, true⟩, HandleState.acquired, 0, true,
        HandleState.acquired, 0⟩).1.gpio = HandleState.released ∧
    (shutdown ⟨⟨true, false, false, true⟩, HandleState.acquired, 0, true,
        HandleState.acquired, 0⟩).1.cam = HandleState.released ∧
    (shutdown ⟨⟨true, false, false, true⟩, HandleState.acquired, 0, true,
        HandleState.acquired, 0⟩).1.gpioReleases = 1 ∧
    (shutdown ⟨⟨true, false, false, true⟩, HandleState.acquired, 0, true,
        HandleState.acquired, 0⟩).1.camReleases = 1 :=
  shutdown_sequence ⟨⟨true, false, false, true⟩, HandleState.acquired, 0, true,
    HandleState.acquired, 0⟩ rfl rfl rfl

end PushPull
